import Mathlib

/-!
Verification of the RustQuant pricing library against its specification.

Shallow embedding conventions:
* `f64` values are embedded as `ℚ` (the claims under scrutiny involve only
  field arithmetic, comparisons and `max`; no rounding behaviour is claimed).
* `time::Date` is embedded as `ℤ`, a day number.
* The transcendental `f64::exp` is passed as an explicit function parameter
  `fexp : ℚ → ℚ` to the curve functions that use it, so every definition
  stays computable; the theorems quantify over `fexp`.
* A Rust `assert!` failure (fatal abort) and an `unimplemented!` panic are
  embedded as the `Except.error` branch of an explicit error channel, with
  distinct error values for precondition violations and unimplemented
  capabilities.
* The implicit `today()` global of the `time` module is made an explicit
  parameter of every function that reads it, so that its influence can be
  stated and examined.
-/

/-- Option type flag (call or put), as used by `EuropeanVanillaOption`. -/
inductive TypeFlag where
  | Call : TypeFlag
  | Put : TypeFlag
deriving DecidableEq, Repr

/-- European vanilla option, from `src/instruments/options/vanilla.rs`:
strike price, expiry date and the call/put flag. -/
structure EuropeanVanillaOption where
  strike : ℚ
  expiry : ℤ
  type_flag : TypeFlag
deriving DecidableEq, Repr

/-- Payoff of a European vanilla option on a terminal underlying value,
from `impl Payoff for EuropeanVanillaOption` in
`src/instruments/options/vanilla.rs`: `max(S - K, 0)` for a call and
`max(K - S, 0)` for a put. -/
def EuropeanVanillaOption.payoff (o : EuropeanVanillaOption) (underlying : ℚ) : ℚ :=
  match o.type_flag with
  | TypeFlag.Call => max (underlying - o.strike) 0
  | TypeFlag.Put => max (o.strike - underlying) 0

/-- Constructor `EuropeanVanillaOption::new` from
`src/instruments/options/vanilla.rs`: it stores the three fields directly and
performs no validation of any kind. -/
def EuropeanVanillaOption.new (strike : ℚ) (expiry : ℤ)
    (type_flag : TypeFlag) : EuropeanVanillaOption :=
  { strike := strike, expiry := expiry, type_flag := type_flag }

/-- Modelled from the spec: the calendar/day-count collaborator (its source
is not among the shown files; §6 of the spec describes it as "a year-fraction
conversion between two dates"). Dates are day numbers; the year fraction
between two dates is the day difference over 365. -/
def year_fraction (d1 d2 : ℤ) : ℚ :=
  ((d2 - d1 : ℤ) : ℚ) / 365

/-- Modelled from the spec: `DayCountConvention::default().day_count_factor`,
the same year-fraction conversion of the calendar collaborator (§6). -/
def day_count_factor (d1 d2 : ℤ) : ℚ :=
  ((d2 - d1 : ℤ) : ℚ) / 365

/-- Abstract surface of a generalised Black-Scholes-Merton model variant
(`BlackScholes73`, `Merton73`, `Black76`, `Asay82`, `GarmanKohlhagen83`):
the fourteen methods the analytic pricer forwards to, each taking the strike,
the year fraction to expiry, and the type flag. The closed-form bodies live
outside the shown sources; only their call signatures matter to the claims. -/
structure GeneralisedBlackScholesMerton where
  price : ℚ → ℚ → TypeFlag → ℚ
  delta : ℚ → ℚ → TypeFlag → ℚ
  gamma : ℚ → ℚ → TypeFlag → ℚ
  theta : ℚ → ℚ → TypeFlag → ℚ
  vega : ℚ → ℚ → TypeFlag → ℚ
  rho : ℚ → ℚ → TypeFlag → ℚ
  vanna : ℚ → ℚ → TypeFlag → ℚ
  charm : ℚ → ℚ → TypeFlag → ℚ
  lambda : ℚ → ℚ → TypeFlag → ℚ
  zomma : ℚ → ℚ → TypeFlag → ℚ
  speed : ℚ → ℚ → TypeFlag → ℚ
  color : ℚ → ℚ → TypeFlag → ℚ
  vomma : ℚ → ℚ → TypeFlag → ℚ
  ultima : ℚ → ℚ → TypeFlag → ℚ

/-- Analytic option pricer from `src/instruments/options/vanilla.rs`: an
option together with a model. -/
structure AnalyticOptionPricer where
  option : EuropeanVanillaOption
  model : GeneralisedBlackScholesMerton

/-- Method `price` generated for `AnalyticOptionPricer` in
`src/instruments/options/vanilla.rs`; the implicit `today()` global is the
explicit `today` argument. -/
def AnalyticOptionPricer.price (p : AnalyticOptionPricer) (today : ℤ) : ℚ :=
  let k := p.option.strike
  let t := year_fraction today p.option.expiry
  let f := p.option.type_flag
  p.model.price k t f

/-- Method `delta` generated for `AnalyticOptionPricer`. -/
def AnalyticOptionPricer.delta (p : AnalyticOptionPricer) (today : ℤ) : ℚ :=
  let k := p.option.strike
  let t := year_fraction today p.option.expiry
  let f := p.option.type_flag
  p.model.delta k t f

/-- Method `gamma` generated for `AnalyticOptionPricer`. -/
def AnalyticOptionPricer.gamma (p : AnalyticOptionPricer) (today : ℤ) : ℚ :=
  let k := p.option.strike
  let t := year_fraction today p.option.expiry
  let f := p.option.type_flag
  p.model.gamma k t f

/-- Method `theta` generated for `AnalyticOptionPricer`. -/
def AnalyticOptionPricer.theta (p : AnalyticOptionPricer) (today : ℤ) : ℚ :=
  let k := p.option.strike
  let t := year_fraction today p.option.expiry
  let f := p.option.type_flag
  p.model.theta k t f

/-- Method `vega` generated for `AnalyticOptionPricer`. -/
def AnalyticOptionPricer.vega (p : AnalyticOptionPricer) (today : ℤ) : ℚ :=
  let k := p.option.strike
  let t := year_fraction today p.option.expiry
  let f := p.option.type_flag
  p.model.vega k t f

/-- Method `rho` generated for `AnalyticOptionPricer`. -/
def AnalyticOptionPricer.rho (p : AnalyticOptionPricer) (today : ℤ) : ℚ :=
  let k := p.option.strike
  let t := year_fraction today p.option.expiry
  let f := p.option.type_flag
  p.model.rho k t f

/-- Method `vanna` generated for `AnalyticOptionPricer`. -/
def AnalyticOptionPricer.vanna (p : AnalyticOptionPricer) (today : ℤ) : ℚ :=
  let k := p.option.strike
  let t := year_fraction today p.option.expiry
  let f := p.option.type_flag
  p.model.vanna k t f

/-- Method `charm` generated for `AnalyticOptionPricer`. -/
def AnalyticOptionPricer.charm (p : AnalyticOptionPricer) (today : ℤ) : ℚ :=
  let k := p.option.strike
  let t := year_fraction today p.option.expiry
  let f := p.option.type_flag
  p.model.charm k t f

/-- Method `lambda` generated for `AnalyticOptionPricer`. -/
def AnalyticOptionPricer.lambda (p : AnalyticOptionPricer) (today : ℤ) : ℚ :=
  let k := p.option.strike
  let t := year_fraction today p.option.expiry
  let f := p.option.type_flag
  p.model.lambda k t f

/-- Method `zomma` generated for `AnalyticOptionPricer`. -/
def AnalyticOptionPricer.zomma (p : AnalyticOptionPricer) (today : ℤ) : ℚ :=
  let k := p.option.strike
  let t := year_fraction today p.option.expiry
  let f := p.option.type_flag
  p.model.zomma k t f

/-- Method `speed` generated for `AnalyticOptionPricer`. -/
def AnalyticOptionPricer.speed (p : AnalyticOptionPricer) (today : ℤ) : ℚ :=
  let k := p.option.strike
  let t := year_fraction today p.option.expiry
  let f := p.option.type_flag
  p.model.speed k t f

/-- Method `color` generated for `AnalyticOptionPricer`. -/
def AnalyticOptionPricer.color (p : AnalyticOptionPricer) (today : ℤ) : ℚ :=
  let k := p.option.strike
  let t := year_fraction today p.option.expiry
  let f := p.option.type_flag
  p.model.color k t f

/-- Method `vomma` generated for `AnalyticOptionPricer`. -/
def AnalyticOptionPricer.vomma (p : AnalyticOptionPricer) (today : ℤ) : ℚ :=
  let k := p.option.strike
  let t := year_fraction today p.option.expiry
  let f := p.option.type_flag
  p.model.vomma k t f

/-- Method `ultima` generated for `AnalyticOptionPricer`. -/
def AnalyticOptionPricer.ultima (p : AnalyticOptionPricer) (today : ℤ) : ℚ :=
  let k := p.option.strike
  let t := year_fraction today p.option.expiry
  let f := p.option.type_flag
  p.model.ultima k t f

/-- Selector naming one of the fourteen per-Greek methods of the analytic
pricer. -/
inductive Greek where
  | price | delta | gamma | theta | vega | rho | vanna
  | charm | lambda | zomma | speed | color | vomma | ultima
deriving DecidableEq, Repr

/-- Dispatch a Greek selector to the like-named model method. -/
def GeneralisedBlackScholesMerton.greek (m : GeneralisedBlackScholesMerton) :
    Greek → ℚ → ℚ → TypeFlag → ℚ
  | Greek.price => m.price
  | Greek.delta => m.delta
  | Greek.gamma => m.gamma
  | Greek.theta => m.theta
  | Greek.vega => m.vega
  | Greek.rho => m.rho
  | Greek.vanna => m.vanna
  | Greek.charm => m.charm
  | Greek.lambda => m.lambda
  | Greek.zomma => m.zomma
  | Greek.speed => m.speed
  | Greek.color => m.color
  | Greek.vomma => m.vomma
  | Greek.ultima => m.ultima

/-- Single parametrized evaluation path: compute the argument triple
(strike, year fraction from `today` to expiry, type flag) once and hand it to
the model method selected by the Greek selector. -/
def AnalyticOptionPricer.evaluate (p : AnalyticOptionPricer) (g : Greek)
    (today : ℤ) : ℚ :=
  let k := p.option.strike
  let t := year_fraction today p.option.expiry
  let f := p.option.type_flag
  p.model.greek g k t f

/-- A concrete model instance whose every method returns its time argument;
used to exhibit the dependence of the pricer on the current date. -/
def gbsm_time_model : GeneralisedBlackScholesMerton where
  price := fun _ t _ => t
  delta := fun _ t _ => t
  gamma := fun _ t _ => t
  theta := fun _ t _ => t
  vega := fun _ t _ => t
  rho := fun _ t _ => t
  vanna := fun _ t _ => t
  charm := fun _ t _ => t
  lambda := fun _ t _ => t
  zomma := fun _ t _ => t
  speed := fun _ t _ => t
  color := fun _ t _ => t
  vomma := fun _ t _ => t
  ultima := fun _ t _ => t

/-- Error channel of the curve module: a fatal precondition violation (a Rust
`assert!` panic) or an unimplemented capability (a Rust `unimplemented!`
panic). -/
inductive CurveError where
  | preconditionViolation : CurveError
  | notImplemented : CurveError
deriving DecidableEq, Repr

/-- Decidable equality for the explicit error channel, so concrete curve
results can be checked by evaluation. -/
instance exceptDecidableEq {ε σ : Type} [DecidableEq ε] [DecidableEq σ] :
    DecidableEq (Except ε σ) := fun a b =>
  match a, b with
  | Except.ok x, Except.ok y =>
    if h : x = y then Decidable.isTrue (by rw [h])
    else Decidable.isFalse (fun hc => h (by injection hc))
  | Except.ok _, Except.error _ => Decidable.isFalse (fun hc => Except.noConfusion hc)
  | Except.error _, Except.ok _ => Decidable.isFalse (fun hc => Except.noConfusion hc)
  | Except.error e, Except.error e2 =>
    if h : e = e2 then Decidable.isTrue (by rw [h])
    else Decidable.isFalse (fun hc => h (by injection hc))

/-- Nelson-Siegel (1987) model parameters, from `src/curves/nelson_siegel.rs`. -/
structure NelsonSiegel where
  beta0 : ℚ
  beta1 : ℚ
  beta2 : ℚ
  lambda : ℚ
deriving DecidableEq, Repr

/-- Constructor `NelsonSiegel::new` from `src/curves/nelson_siegel.rs`. -/
def NelsonSiegel.new (beta0 beta1 beta2 lambda : ℚ) : NelsonSiegel :=
  { beta0 := beta0, beta1 := beta1, beta2 := beta2, lambda := lambda }

/-- `NelsonSiegel::forward_rate` from `src/curves/nelson_siegel.rs`: asserts
that the date is strictly in the future of `today` (a failed `assert!` aborts,
embedded as the precondition-violation error), then evaluates the
Nelson-Siegel forward-rate formula on the day-count factor `tau`. -/
def NelsonSiegel.forward_rate (fexp : ℚ → ℚ) (ns : NelsonSiegel)
    (today date : ℤ) : Except CurveError ℚ :=
  if today < date then
    let tau := day_count_factor today date
    let term1 := fexp (-tau / ns.lambda)
    let term2 := tau / ns.lambda * term1
    Except.ok (ns.beta0 + ns.beta1 * term1 + ns.beta2 * term2)
  else
    Except.error CurveError.preconditionViolation

/-- `NelsonSiegel::spot_rate` from `src/curves/nelson_siegel.rs`: same
future-date assertion, then the Nelson-Siegel spot-rate formula. -/
def NelsonSiegel.spot_rate (fexp : ℚ → ℚ) (ns : NelsonSiegel)
    (today date : ℤ) : Except CurveError ℚ :=
  if today < date then
    let tau := day_count_factor today date
    let term1 := ns.lambda * (1 - fexp (-tau / ns.lambda)) / tau
    let term2 := term1 - fexp (-tau / ns.lambda)
    Except.ok (ns.beta0 + ns.beta1 * term1 + ns.beta2 * term2)
  else
    Except.error CurveError.preconditionViolation

/-- `NelsonSiegel::discount_factor` from `src/curves/nelson_siegel.rs`:
computes the day-count factor `tau`, calls `spot_rate` (whose assertion
propagates), and discounts by `exp(-spot_rate * tau / 100)`. -/
def NelsonSiegel.discount_factor (fexp : ℚ → ℚ) (ns : NelsonSiegel)
    (today date : ℤ) : Except CurveError ℚ :=
  let tau := day_count_factor today date
  match ns.spot_rate fexp today date with
  | Except.ok r => Except.ok (fexp (-r * tau / 100))
  | Except.error e => Except.error e

/-- `NelsonSiegel::calibrate` from `src/curves/nelson_siegel.rs`: the body is
a bare `unimplemented!()`, embedded as the distinguished not-implemented
error; the curve argument (an abstract date-to-value map) is ignored. -/
def NelsonSiegel.calibrate (_ns : NelsonSiegel) (_curve : ℤ → ℚ) :
    Except CurveError NelsonSiegel :=
  Except.error CurveError.notImplemented

/-- Modelled from the spec: the simulation configuration handed to the
Euler-Maruyama engine (§3; the engine source `src/stochastics/process.rs` is
not among the shown files, cf. the doc example in `src/stochastics/mod.rs`:
`euler_maruyama(x_0, t_0, t_n, n, sims, parallel)`). The value type is a
parameter so the scheme's field arithmetic stays abstract and executable. -/
structure StochasticProcessConfig (σ : Type) where
  initial_value : σ
  t_0 : σ
  t_n : σ
  num_steps : ℕ
  num_simulations : ℕ
  parallel : Bool

/-- Modelled from the spec: the Euler-Maruyama state recursion (§4.2):
`x[i+1] = x[i] + drift(x[i], t_i) dt + diffusion(x[i], t_i) sqrt(dt) z`, with
`t_i = t_0 + i dt`; `sdt` is the precomputed `sqrt(dt)` value and `noise` the
per-(simulation index, step) standard normal draw of the seeding scheme. -/
def em_state {σ : Type} [Field σ] (drift diffusion : σ → σ → σ)
    (dt sdt t0 x0 : σ) (noise : ℕ → ℕ → σ) (sim : ℕ) : ℕ → σ
  | 0 => x0
  | i + 1 =>
    let x := em_state drift diffusion dt sdt t0 x0 noise sim i
    let t := t0 + (i : σ) * dt
    x + drift x t * dt + diffusion x t * sdt * noise sim i

/-- Modelled from the spec: one full sample path for a given simulation
index — the states at steps `0 .. num_steps` (§4.2). -/
def em_path {σ : Type} [Field σ] (drift diffusion : σ → σ → σ)
    (dt sdt t0 x0 : σ) (noise : ℕ → ℕ → σ) (num_steps : ℕ) (sim : ℕ) :
    List σ :=
  (List.range (num_steps + 1)).map (em_state drift diffusion dt sdt t0 x0 noise sim)

/-- Modelled from the spec: the uniform time grid
`t_0 + i dt` for `i in 0 ..= num_steps` (§8). -/
def em_times {σ : Type} [Field σ] (t0 dt : σ) (num_steps : ℕ) : List σ :=
  (List.range (num_steps + 1)).map (fun i => t0 + (i : σ) * dt)

/-- Trajectories result container (§3): time grid plus one path per
simulation. -/
structure Trajectories (σ : Type) where
  times : List σ
  paths : List (List σ)

/-- Modelled from the spec: sequential execution (`parallel = false`): the
paths are produced in simulation-index order (§4.2). -/
def euler_maruyama_sequential {σ : Type} [Field σ] (drift diffusion : σ → σ → σ)
    (sdt : σ) (noise : ℕ → ℕ → σ) (cfg : StochasticProcessConfig σ) :
    Trajectories σ :=
  let dt := (cfg.t_n - cfg.t_0) / (cfg.num_steps : σ)
  { times := em_times cfg.t_0 dt cfg.num_steps,
    paths := (List.range cfg.num_simulations).map
      (em_path drift diffusion dt sdt cfg.t_0 cfg.initial_value noise cfg.num_steps) }

/-- Modelled from the spec: the write of one finished worker into the
pre-indexed destination slot for its own simulation index (§5: "workers write
into a pre-indexed destination, never append-and-reorder"). -/
def worker_write {σ : Type} (tbl : ℕ → Option (List σ)) (i : ℕ)
    (path : List σ) : ℕ → Option (List σ) :=
  Function.update tbl i (some path)

/-- Modelled from the spec: parallel fan-out (§5). Workers complete in the
order given by `schedule` (an arbitrary permutation of the simulation
indices); each completed worker writes the path for its index — whose noise
stream is seeded by that index alone — into the slot for that index. -/
def run_workers {σ : Type} [Field σ] (drift diffusion : σ → σ → σ)
    (dt sdt t0 x0 : σ) (noise : ℕ → ℕ → σ) (num_steps : ℕ)
    (schedule : List ℕ) : ℕ → Option (List σ) :=
  schedule.foldl
    (fun tbl i =>
      worker_write tbl i (em_path drift diffusion dt sdt t0 x0 noise num_steps i))
    (fun _ => none)

/-- Modelled from the spec: parallel execution (`parallel = true`): run the
workers in an arbitrary completion order, then read the pre-indexed slots in
simulation-index order (§4.2, §5). -/
def euler_maruyama_parallel {σ : Type} [Field σ] (drift diffusion : σ → σ → σ)
    (sdt : σ) (noise : ℕ → ℕ → σ) (cfg : StochasticProcessConfig σ)
    (schedule : List ℕ) : Trajectories σ :=
  let dt := (cfg.t_n - cfg.t_0) / (cfg.num_steps : σ)
  let tbl := run_workers drift diffusion dt sdt cfg.t_0 cfg.initial_value noise
    cfg.num_steps schedule
  { times := em_times cfg.t_0 dt cfg.num_steps,
    paths := (List.range cfg.num_simulations).map (fun i => (tbl i).getD []) }

/-- Two trajectory containers with equal fields are equal. -/
theorem trajectories_ext {σ : Type} {a b : Trajectories σ}
    (h1 : a.times = b.times) (h2 : a.paths = b.paths) : a = b := by
  cases a
  cases b
  cases h1
  cases h2
  rfl

/-- C2: for every terminal value `S` and strike `K` the vanilla payoff is
`max(S - K, 0)` for a call and `max(K - S, 0)` for a put; concretely, a call
with strike 100 pays 10 at terminal value 110 and 0 at terminal value 90, and
the put inverts the signs symmetrically. -/
theorem payoff_max_formula_c2 (K S : ℚ) (e : ℤ) :
    (EuropeanVanillaOption.new K e TypeFlag.Call).payoff S = max (S - K) 0 ∧
    (EuropeanVanillaOption.new K e TypeFlag.Put).payoff S = max (K - S) 0 ∧
    (EuropeanVanillaOption.new 100 e TypeFlag.Call).payoff 110 = 10 ∧
    (EuropeanVanillaOption.new 100 e TypeFlag.Call).payoff 90 = 0 ∧
    (EuropeanVanillaOption.new 100 e TypeFlag.Put).payoff 90 = 10 ∧
    (EuropeanVanillaOption.new 100 e TypeFlag.Put).payoff 110 = 0 := by
  refine ⟨rfl, rfl, ?_, ?_, ?_, ?_⟩ <;>
    simp [EuropeanVanillaOption.payoff, EuropeanVanillaOption.new] <;> norm_num

/-- C8: payoff-level put-call parity: for every strike and underlying, the
call payoff minus the put payoff at the same strike and expiry equals
`S - K`. -/
theorem payoff_put_call_parity_c8 (K S : ℚ) (e : ℤ) :
    (EuropeanVanillaOption.new K e TypeFlag.Call).payoff S -
      (EuropeanVanillaOption.new K e TypeFlag.Put).payoff S = S - K := by
  show max (S - K) 0 - max (K - S) 0 = S - K
  rcases le_total K S with h | h
  · rw [max_eq_left (sub_nonneg.mpr h), max_eq_right (sub_nonpos.mpr h)]
    ring
  · rw [max_eq_right (sub_nonpos.mpr h), max_eq_left (sub_nonneg.mpr h)]
    linarith

/-- C9: the vanilla payoff is non-negative for every strike, every underlying
value and both type flags. -/
theorem payoff_nonneg_c9 (K S : ℚ) (e : ℤ) (f : TypeFlag) :
    0 ≤ (EuropeanVanillaOption.new K e f).payoff S := by
  cases f
  · exact le_max_right _ _
  · exact le_max_right _ _

/-- C7: each of the fourteen generated methods of `AnalyticOptionPricer`
computes the identical argument triple (strike, year fraction from the
current date to expiry, type flag) and forwards it to the like-named model
method, so each one coincides with the single parametrized evaluation path
keyed by the corresponding Greek selector. -/
theorem pricer_methods_single_path_c7 (p : AnalyticOptionPricer) (today : ℤ) :
    p.price today = p.evaluate Greek.price today ∧
    p.delta today = p.evaluate Greek.delta today ∧
    p.gamma today = p.evaluate Greek.gamma today ∧
    p.theta today = p.evaluate Greek.theta today ∧
    p.vega today = p.evaluate Greek.vega today ∧
    p.rho today = p.evaluate Greek.rho today ∧
    p.vanna today = p.evaluate Greek.vanna today ∧
    p.charm today = p.evaluate Greek.charm today ∧
    p.lambda today = p.evaluate Greek.lambda today ∧
    p.zomma today = p.evaluate Greek.zomma today ∧
    p.speed today = p.evaluate Greek.speed today ∧
    p.color today = p.evaluate Greek.color today ∧
    p.vomma today = p.evaluate Greek.vomma today ∧
    p.ultima today = p.evaluate Greek.ultima today :=
  ⟨rfl, rfl, rfl, rfl, rfl, rfl, rfl, rfl, rfl, rfl, rfl, rfl, rfl, rfl⟩

/-- C3 counterexample: with everything else fixed, moving the current date
changes both the analytic price (here with a model whose price method
returns the year fraction, the middle component of the argument triple, and
an option expiring on day 365: evaluated with the current date at day 365
the price is strictly below its value with the current date at day 0) and
the Nelson-Siegel forward rate (same curve and query date, two current
dates, two different rates). Pricing and the curve rates therefore do depend
on the implicit current date, refuting the claim. -/
theorem price_depends_on_today_c3_counterexample :
    AnalyticOptionPricer.price
        ⟨EuropeanVanillaOption.new 100 365 TypeFlag.Call, gbsm_time_model⟩ 365 <
      AnalyticOptionPricer.price
        ⟨EuropeanVanillaOption.new 100 365 TypeFlag.Call, gbsm_time_model⟩ 0 ∧
    NelsonSiegel.forward_rate id ⟨0, 1, 0, 1⟩ 0 2 =
      Except.ok (-day_count_factor 0 2) ∧
    NelsonSiegel.forward_rate id ⟨0, 1, 0, 1⟩ 1 2 =
      Except.ok (-day_count_factor 1 2) ∧
    -day_count_factor 0 2 < -day_count_factor 1 2 := by
  refine ⟨?_, ?_, ?_, ?_⟩
  · show year_fraction 365 365 < year_fraction 0 365
    unfold year_fraction
    norm_num
  · simp [NelsonSiegel.forward_rate]
  · simp [NelsonSiegel.forward_rate]
  · unfold day_count_factor
    norm_num

/-- C3 amended: pricing and the curve rates are pure functions of their
explicit inputs together with the current date, and they depend on the
current date only through the derived year fraction / day-count factor:
whenever two (current date, query date) pairs give the same day-count factor
and two (current date, option) pairs give the same strike, type flag and
year fraction to expiry, the curve rates and the price agree. (The original
claim — no dependence on the current date at all — fails on the code, which
reads the implicit `today()` global; the counterexample exhibits the
dependence.) -/
theorem price_pure_given_today_c3 (m : GeneralisedBlackScholesMerton)
    (o1 o2 : EuropeanVanillaOption) (t1 t2 : ℤ)
    (fexp : ℚ → ℚ) (ns : NelsonSiegel) (today1 today2 d1 d2 : ℤ)
    (hk : o1.strike = o2.strike) (hf : o1.type_flag = o2.type_flag)
    (ht : year_fraction t1 o1.expiry = year_fraction t2 o2.expiry)
    (hd : day_count_factor today1 d1 = day_count_factor today2 d2) :
    AnalyticOptionPricer.price ⟨o1, m⟩ t1 = AnalyticOptionPricer.price ⟨o2, m⟩ t2 ∧
    ns.forward_rate fexp today1 d1 = ns.forward_rate fexp today2 d2 ∧
    ns.spot_rate fexp today1 d1 = ns.spot_rate fexp today2 d2 := by
  have hd2 := hd
  unfold day_count_factor at hd2
  have hdiff : d1 - today1 = d2 - today2 := by
    field_simp at hd2
    exact_mod_cast hd2
  have hiff : today1 < d1 ↔ today2 < d2 := by omega
  refine ⟨?_, ?_, ?_⟩
  · show m.price o1.strike (year_fraction t1 o1.expiry) o1.type_flag =
      m.price o2.strike (year_fraction t2 o2.expiry) o2.type_flag
    rw [hk, hf, ht]
  · unfold NelsonSiegel.forward_rate
    rw [hd]
    by_cases h : today2 < d2
    · rw [if_pos (hiff.mpr h), if_pos h]
    · rw [if_neg (fun hc => h (hiff.mp hc)), if_neg h]
  · unfold NelsonSiegel.spot_rate
    rw [hd]
    by_cases h : today2 < d2
    · rw [if_pos (hiff.mpr h), if_pos h]
    · rw [if_neg (fun hc => h (hiff.mp hc)), if_neg h]

/-- Witness for the amended C3 theorem at concrete inputs: two different
current dates whose derived quantities coincide, on which price and curve
rates agree. -/
theorem price_pure_given_today_c3_witness :
    (EuropeanVanillaOption.new 100 365 TypeFlag.Call).strike =
      (EuropeanVanillaOption.new 100 730 TypeFlag.Call).strike ∧
    (EuropeanVanillaOption.new 100 365 TypeFlag.Call).type_flag =
      (EuropeanVanillaOption.new 100 730 TypeFlag.Call).type_flag ∧
    year_fraction 0 (EuropeanVanillaOption.new 100 365 TypeFlag.Call).expiry =
      year_fraction 365 (EuropeanVanillaOption.new 100 730 TypeFlag.Call).expiry ∧
    day_count_factor 0 2 = day_count_factor 1 3 ∧
    (AnalyticOptionPricer.price
        ⟨EuropeanVanillaOption.new 100 365 TypeFlag.Call, gbsm_time_model⟩ 0 =
      AnalyticOptionPricer.price
        ⟨EuropeanVanillaOption.new 100 730 TypeFlag.Call, gbsm_time_model⟩ 365 ∧
      NelsonSiegel.forward_rate id ⟨0, 1, 0, 1⟩ 0 2 =
        NelsonSiegel.forward_rate id ⟨0, 1, 0, 1⟩ 1 3 ∧
      NelsonSiegel.spot_rate id ⟨0, 1, 0, 1⟩ 0 2 =
        NelsonSiegel.spot_rate id ⟨0, 1, 0, 1⟩ 1 3) :=
  ⟨rfl, rfl, by simp [year_fraction, EuropeanVanillaOption.new], by simp [day_count_factor],
    price_pure_given_today_c3 gbsm_time_model
      (EuropeanVanillaOption.new 100 365 TypeFlag.Call)
      (EuropeanVanillaOption.new 100 730 TypeFlag.Call) 0 365 id
      ⟨0, 1, 0, 1⟩ 0 1 2 3 rfl rfl (by simp [year_fraction, EuropeanVanillaOption.new])
      (by simp [day_count_factor])⟩

/-- C6 counterexample: constructing a vanilla option with the non-positive
strike -1 succeeds and stores the invalid strike unchanged — `new` cannot
fail and checks nothing, so construction-time validation does not happen. -/
theorem new_accepts_nonpositive_strike_c6_counterexample :
    (EuropeanVanillaOption.new (-1) 0 TypeFlag.Call).strike = -1 ∧
    (-1 : ℚ) < 0 ∧
    EuropeanVanillaOption.new (-1) 0 TypeFlag.Call =
      { strike := -1, expiry := 0, type_flag := TypeFlag.Call } :=
  ⟨rfl, by norm_num, rfl⟩

/-- C6 amended: `EuropeanVanillaOption::new` performs no validation at
construction time: for every strike (positive or not), every expiry and
every type flag it totally and immediately returns the option carrying
exactly those fields. -/
theorem new_stores_fields_unvalidated_c6 (k : ℚ) (e : ℤ) (f : TypeFlag) :
    (EuropeanVanillaOption.new k e f).strike = k ∧
    (EuropeanVanillaOption.new k e f).expiry = e ∧
    (EuropeanVanillaOption.new k e f).type_flag = f :=
  ⟨rfl, rfl, rfl⟩

/-- C4: the Nelson-Siegel forward and spot rates succeed exactly on strictly
future dates, and on any date not strictly after the current date they abort
with the fatal precondition violation instead of returning a rate. -/
theorem curve_rates_future_date_precondition_c4 (fexp : ℚ → ℚ)
    (ns : NelsonSiegel) (today date : ℤ) :
    ((ns.forward_rate fexp today date).isOk = true ↔ today < date) ∧
    (ns.forward_rate fexp today date = Except.error CurveError.preconditionViolation ↔
      date ≤ today) ∧
    ((ns.spot_rate fexp today date).isOk = true ↔ today < date) ∧
    (ns.spot_rate fexp today date = Except.error CurveError.preconditionViolation ↔
      date ≤ today) := by
  unfold NelsonSiegel.forward_rate NelsonSiegel.spot_rate
  by_cases h : today < date
  · rw [if_pos h, if_pos h]
    have hnl : ¬date ≤ today := not_le.mpr h
    exact ⟨⟨fun _ => h, fun _ => rfl⟩,
      ⟨fun hc => Except.noConfusion hc, fun hc => absurd hc hnl⟩,
      ⟨fun _ => h, fun _ => rfl⟩,
      ⟨fun hc => Except.noConfusion hc, fun hc => absurd hc hnl⟩⟩
  · rw [if_neg h, if_neg h]
    exact ⟨⟨fun hc => Bool.noConfusion hc, fun hc => absurd hc h⟩,
      ⟨fun _ => not_lt.mp h, fun _ => rfl⟩,
      ⟨fun hc => Bool.noConfusion hc, fun hc => absurd hc h⟩,
      ⟨fun _ => not_lt.mp h, fun _ => rfl⟩⟩

/-- C5: for every curve, `NelsonSiegel::calibrate` surfaces the explicit
not-implemented signal, which is distinct from the precondition-violation
signal, and never returns a computed result. -/
theorem calibrate_not_implemented_c5 (ns : NelsonSiegel) (curve : ℤ → ℚ) :
    ns.calibrate curve = Except.error CurveError.notImplemented ∧
    (ns.calibrate curve).isOk = false ∧
    decide (CurveError.notImplemented = CurveError.preconditionViolation) = false :=
  ⟨rfl, rfl, rfl⟩

/-- C10: whenever `spot_rate` returns a rate `r`, `discount_factor` returns
`exp(-r * tau / 100)` with `tau` the default day-count factor from the
current date — the spot rate is scaled down by 100 before discounting; the
future-date precondition of `spot_rate` is inherited: strictly future dates
succeed and all other dates abort with the precondition violation. -/
theorem discount_factor_formula_c10 (fexp : ℚ → ℚ) (ns : NelsonSiegel)
    (today date : ℤ) :
    (∀ r, ns.spot_rate fexp today date = Except.ok r →
      ns.discount_factor fexp today date =
        Except.ok (fexp (-r * day_count_factor today date / 100))) ∧
    (today < date → (ns.discount_factor fexp today date).isOk = true) ∧
    (date ≤ today →
      ns.discount_factor fexp today date =
        Except.error CurveError.preconditionViolation) := by
  refine ⟨?_, ?_, ?_⟩
  · intro r hr
    unfold NelsonSiegel.discount_factor
    rw [hr]
  · intro h
    unfold NelsonSiegel.discount_factor NelsonSiegel.spot_rate
    rw [if_pos h]
    rfl
  · intro h
    unfold NelsonSiegel.discount_factor NelsonSiegel.spot_rate
    rw [if_neg (not_lt.mpr h)]

/-- Witness for C10 at concrete inputs: a curve whose spot rate on day 365
seen from day 0 is 2, whose discount factor is then `exp` of
`-2 * tau / 100`, and which aborts when queried from day 365 about day 0. -/
theorem discount_factor_formula_c10_witness :
    (NelsonSiegel.spot_rate id ⟨2, 0, 0, 1⟩ 0 365 = Except.ok 2) ∧
    (NelsonSiegel.discount_factor id ⟨2, 0, 0, 1⟩ 0 365 =
      Except.ok (id (-(2 : ℚ) * day_count_factor 0 365 / 100))) ∧
    ((0 : ℤ) < 365 ∧
      (NelsonSiegel.discount_factor id ⟨2, 0, 0, 1⟩ 0 365).isOk = true) ∧
    ((0 : ℤ) ≤ 365 ∧
      NelsonSiegel.discount_factor id ⟨2, 0, 0, 1⟩ 365 0 =
        Except.error CurveError.preconditionViolation) :=
  ⟨by simp [NelsonSiegel.spot_rate],
    (discount_factor_formula_c10 id ⟨2, 0, 0, 1⟩ 0 365).1 2
      (by simp [NelsonSiegel.spot_rate]),
    ⟨by decide, (discount_factor_formula_c10 id ⟨2, 0, 0, 1⟩ 0 365).2.1 (by decide)⟩,
    ⟨by decide, (discount_factor_formula_c10 id ⟨2, 0, 0, 1⟩ 365 0).2.2 (by decide)⟩⟩

/-- Folding worker writes never touches a slot whose index is not in the
schedule. -/
theorem foldl_write_not_mem {σ : Type} (f : ℕ → List σ) (s : List ℕ) :
    ∀ (tbl : ℕ → Option (List σ)) (i : ℕ), i ∉ s →
      s.foldl (fun t j => worker_write t j (f j)) tbl i = tbl i := by
  induction s with
  | nil =>
    intro tbl i _
    rfl
  | cons x xs ih =>
    intro tbl i h
    rw [List.foldl_cons, ih _ i (fun hm => h (List.mem_cons_of_mem x hm))]
    show Function.update tbl x (some (f x)) i = tbl i
    exact Function.update_noteq (fun he => h (List.mem_cons.mpr (Or.inl he))) _ _

/-- Folding worker writes fills the slot of every index in the schedule with
the path for that index, independently of the order of the schedule. -/
theorem foldl_write_mem {σ : Type} (f : ℕ → List σ) (s : List ℕ) :
    ∀ (tbl : ℕ → Option (List σ)) (i : ℕ), i ∈ s →
      s.foldl (fun t j => worker_write t j (f j)) tbl i = some (f i) := by
  induction s with
  | nil =>
    intro tbl i h
    cases h
  | cons x xs ih =>
    intro tbl i h
    rw [List.foldl_cons]
    by_cases hm : i ∈ xs
    · exact ih _ i hm
    · have hx : i = x := by
        rcases List.mem_cons.mp h with h1 | h2
        · exact h1
        · exact absurd h2 hm
      subst hx
      rw [foldl_write_not_mem f xs _ i hm]
      show Function.update tbl i (some (f i)) i = some (f i)
      exact Function.update_same i _ tbl

/-- C1: for every configuration, drift/diffusion pair and per-index seeding
scheme, and every completion order of the parallel workers (any permutation
of the simulation indices), the parallel run produces Trajectories identical
element-for-element to the sequential run, and output path `i` is exactly
the path of simulation index `i`. -/
theorem parallel_equals_sequential_c1 {σ : Type} [Field σ]
    (drift diffusion : σ → σ → σ) (sdt : σ) (noise : ℕ → ℕ → σ)
    (cfg : StochasticProcessConfig σ) (schedule : List ℕ)
    (hperm : schedule.Perm (List.range cfg.num_simulations)) :
    euler_maruyama_parallel drift diffusion sdt noise cfg schedule =
      euler_maruyama_sequential drift diffusion sdt noise cfg ∧
    ∀ i, i < cfg.num_simulations →
      (euler_maruyama_parallel drift diffusion sdt noise cfg schedule).paths[i]? =
        some (em_path drift diffusion ((cfg.t_n - cfg.t_0) / (cfg.num_steps : σ)) sdt
          cfg.t_0 cfg.initial_value noise cfg.num_steps i) := by
  have key : ∀ i ∈ List.range cfg.num_simulations,
      run_workers drift diffusion ((cfg.t_n - cfg.t_0) / (cfg.num_steps : σ)) sdt
        cfg.t_0 cfg.initial_value noise cfg.num_steps schedule i =
      some (em_path drift diffusion ((cfg.t_n - cfg.t_0) / (cfg.num_steps : σ)) sdt
        cfg.t_0 cfg.initial_value noise cfg.num_steps i) := by
    intro i hi
    unfold run_workers
    exact foldl_write_mem _ schedule _ i (hperm.mem_iff.mpr hi)
  have hpaths : (euler_maruyama_parallel drift diffusion sdt noise cfg schedule).paths =
      (euler_maruyama_sequential drift diffusion sdt noise cfg).paths := by
    show (List.range cfg.num_simulations).map
        (fun i => (run_workers drift diffusion
          ((cfg.t_n - cfg.t_0) / (cfg.num_steps : σ)) sdt cfg.t_0 cfg.initial_value
          noise cfg.num_steps schedule i).getD []) =
      (List.range cfg.num_simulations).map
        (em_path drift diffusion ((cfg.t_n - cfg.t_0) / (cfg.num_steps : σ)) sdt
          cfg.t_0 cfg.initial_value noise cfg.num_steps)
    apply List.map_congr_left
    intro i hi
    rw [key i hi]
    rfl
  refine ⟨trajectories_ext rfl hpaths, ?_⟩
  intro i hi
  show ((List.range cfg.num_simulations).map
      (fun i => (run_workers drift diffusion
        ((cfg.t_n - cfg.t_0) / (cfg.num_steps : σ)) sdt cfg.t_0 cfg.initial_value
        noise cfg.num_steps schedule i).getD []))[i]? = _
  rw [List.getElem?_map, List.getElem?_range hi, Option.map_some',
    key i (List.mem_range.mpr hi)]
  rfl

/-- Witness for C1 at a concrete configuration: two simulations, two steps,
workers completing in reversed order, with concrete drift, diffusion and
seeding functions over the rationals. -/
theorem parallel_equals_sequential_c1_witness :
    List.Perm [1, 0] (List.range
      (StochasticProcessConfig.num_simulations
        (σ := ℚ) ⟨100, 0, 1, 2, 2, true⟩)) ∧
    (euler_maruyama_parallel (fun x _ => x) (fun _ _ => (1 : ℚ)) 1
        (fun i j => (i : ℚ) + (j : ℚ)) ⟨100, 0, 1, 2, 2, true⟩ [1, 0] =
      euler_maruyama_sequential (fun x _ => x) (fun _ _ => (1 : ℚ)) 1
        (fun i j => (i : ℚ) + (j : ℚ)) ⟨100, 0, 1, 2, 2, true⟩) ∧
    (0 < 2 ∧
      (euler_maruyama_parallel (fun x _ => x) (fun _ _ => (1 : ℚ)) 1
          (fun i j => (i : ℚ) + (j : ℚ)) ⟨100, 0, 1, 2, 2, true⟩ [1, 0]).paths[0]? =
        some (em_path (fun x _ => x) (fun _ _ => (1 : ℚ))
          (((1 : ℚ) - 0) / ((2 : ℕ) : ℚ)) 1 0 100
          (fun i j => (i : ℚ) + (j : ℚ)) 2 0)) :=
  ⟨by decide,
    (parallel_equals_sequential_c1 (fun x _ => x) (fun _ _ => (1 : ℚ)) 1
      (fun i j => (i : ℚ) + (j : ℚ)) ⟨100, 0, 1, 2, 2, true⟩ [1, 0] (by decide)).1,
    ⟨by decide,
      (parallel_equals_sequential_c1 (fun x _ => x) (fun _ _ => (1 : ℚ)) 1
        (fun i j => (i : ℚ) + (j : ℚ)) ⟨100, 0, 1, 2, 2, true⟩ [1, 0]
        (by decide)).2 0 (by decide)⟩⟩
